import Mathlib

/-!
Shallow embedding of the computational core of `cycloid_app.py`: the cycloidal
rotor-profile evaluator, the circle placements for roller and output-hole
centres, the advisory sanity checks, and the SolidWorks equation-text export.
Real-valued arithmetic, trigonometry and the two-argument inverse tangent are
modelled over `ℝ`; the sanity-check comparisons (pure rational arithmetic in
the source) over `ℚ`; the exported text over `String`, with the rendering of
floating-point values abstracted as a function parameter.
-/

open Real

namespace CycloidApp

/-- Two-argument quadrant-aware inverse tangent, the semantics of
`np.arctan2(y, x)` on real (non-NaN, unsigned-zero) inputs:
`arctan (y/x)` for `x > 0`, shifted by `±π` into the correct quadrant for
`x < 0`, and `±π/2` (or `0`) on the axis `x = 0`. -/
noncomputable def arctan2 (y x : ℝ) : ℝ :=
  if 0 < x then Real.arctan (y / x)
  else if x < 0 then
    (if 0 ≤ y then Real.arctan (y / x) + π else Real.arctan (y / x) - π)
  else
    (if 0 < y then π / 2 else if y < 0 then -(π / 2) else 0)

/-- Intermediate `a = (1 - N) * tt` from `cycloid_profile_xy` (source line 66). -/
noncomputable def cycloid_a (N : ℤ) (tt : ℝ) : ℝ :=
  (1 - (N : ℝ)) * tt

/-- Intermediate `denom = (R / (E*N)) - cos(a)` from `cycloid_profile_xy`
(source line 67). -/
noncomputable def cycloid_denom (R E : ℝ) (N : ℤ) (tt : ℝ) : ℝ :=
  (R / (E * (N : ℝ))) - Real.cos (cycloid_a N tt)

/-- Intermediate `psi = arctan2(sin(a), denom)` from `cycloid_profile_xy`
(source line 68). -/
noncomputable def cycloid_psi (R E : ℝ) (N : ℤ) (tt : ℝ) : ℝ :=
  arctan2 (Real.sin (cycloid_a N tt)) (cycloid_denom R E N tt)

/-- One sample of `cycloid_profile_xy` (source lines 57-72): the rotor profile
point at parameter `t`, with `tt = t + phase_rad`; the source locals `a`,
`denom` and `psi` are the helper definitions above. -/
noncomputable def cycloid_point (t R Rr E : ℝ) (N : ℤ) (phase_rad : ℝ) : ℝ × ℝ :=
  ((R * Real.cos (t + phase_rad)) -
     (Rr * Real.cos ((t + phase_rad) + cycloid_psi R E N (t + phase_rad))) -
     (E * Real.cos ((N : ℝ) * (t + phase_rad))),
   (-R * Real.sin (t + phase_rad)) +
     (Rr * Real.sin ((t + phase_rad) + cycloid_psi R E N (t + phase_rad))) +
     (E * Real.sin ((N : ℝ) * (t + phase_rad))))

/-- Vectorised `cycloid_profile_xy`: the source applies the formulas elementwise
to the whole sample array `t`; here the array is a list and the result pairs
the x and y coordinates per sample. -/
noncomputable def cycloid_profile_xy (t : List ℝ) (R Rr E : ℝ) (N : ℤ) (phase_rad : ℝ) :
    List (ℝ × ℝ) :=
  t.map (fun ti => cycloid_point ti R Rr E N phase_rad)

/-- Semantics of `np.linspace(a, b, num, endpoint=True)`: `num` evenly spaced
values from `a` to `b` inclusive, the i-th being `a + i*(b-a)/(num-1)`. -/
noncomputable def linspace (a b : ℝ) (num : ℕ) : List ℝ :=
  (List.range num).map (fun (i : ℕ) => a + (i : ℝ) * ((b - a) / ((num : ℝ) - 1)))

/-- Semantics of `np.linspace(a, b, num, endpoint=False)`: `num` evenly spaced
values starting at `a` with step `(b-a)/num`, excluding `b`. -/
noncomputable def linspace_ef (a b : ℝ) (num : ℕ) : List ℝ :=
  (List.range num).map (fun (i : ℕ) => a + (i : ℝ) * ((b - a) / (num : ℝ)))

/-- The sample sweep built by the app (source line 225):
`t = np.linspace(0.0, 2*pi - eps, samples, endpoint=True)`. -/
noncomputable def sweep_t (eps : ℝ) (samples : ℕ) : List ℝ :=
  linspace 0 ((2 * π) - eps) samples

/-- Centres of rollers on pitch circle radius `R` (source lines 75-78):
angles `np.linspace(0, 2π, N, endpoint=False)`, points `(R cos, R sin)`. -/
noncomputable def roller_centres (R : ℝ) (N : ℕ) : List (ℝ × ℝ) :=
  (linspace_ef 0 (2 * π) N).map (fun ang => (R * Real.cos ang, R * Real.sin ang))

/-- Centres of the output holes (source lines 81-83): same construction as
`roller_centres` with radius `out_pin_circle_R` and count `out_pin_count`. -/
noncomputable def output_hole_centres (out_pin_circle_R : ℝ) (out_pin_count : ℕ) :
    List (ℝ × ℝ) :=
  (linspace_ef 0 (2 * π) out_pin_count).map
    (fun ang => (out_pin_circle_R * Real.cos ang, out_pin_circle_R * Real.sin ang))

/-- Advisory sanity-check warnings (source lines 213-219): each failed check
appends its message; the list never raises and does not gate computation.
Comparisons in the source are on floats; the concrete inputs of interest are
rational, so the checks are embedded over `ℚ`. -/
def sanity_warnings (R Rr E : ℚ) (N : ℤ) : List String :=
  (if E ≤ 0 then ["E must be > 0."] else []) ++
  (if E > R / (N : ℚ) then
    ["E is larger than R/N. This often causes ugly/self-intersecting profiles. Not always invalid, but check fit."]
   else []) ++
  (if R ≤ Rr then
    ["R should usually be larger than Rr (roller circle radius vs roller radius)."]
   else [])

/-- Parameter record of the app (source `Params` dataclass, lines 26-46),
restricted to the fields the exporters read. -/
structure Params where
  R : ℝ
  Rr : ℝ
  E : ℝ
  N : ℤ
  out_pin_circle_R : ℝ
  out_pin_count : ℤ
  out_pin_diam : ℝ
  hole_clearance : ℝ
  dual_disc : Bool
  disc2_phase_deg : ℝ
  samples : ℤ
  eps : ℝ

/-- Degrees-to-radians conversion `math.radians` used for the disc-2 phase. -/
noncomputable def radians (deg : ℝ) : ℝ :=
  deg * (π / 180)

/-- The `psi` sub-expression of the exported SolidWorks equations (source
lines 96-98): single-argument `atan` of the sine/denominator fraction. -/
def sw_psi (N : ℤ) : String :=
  "atan( sin((1-" ++ toString N ++ ")*t) / ((R/(E*" ++ toString N ++
    ")) - cos((1-" ++ toString N ++ ")*t)) )"

/-- The exported X-equation line (source line 99). -/
def sw_x_eq (N : ℤ) : String :=
  "X = (R*cos(t)) - (Rr*cos(t + " ++ sw_psi N ++ ")) - (E*cos(" ++ toString N ++ "*t))"

/-- The exported Y-equation line (source line 100). -/
def sw_y_eq (N : ℤ) : String :=
  "Y = (-R*sin(t)) + (Rr*sin(t + " ++ sw_psi N ++ ")) + (E*sin(" ++ toString N ++ "*t))"

/-- Lower end of the recommended parameter range (source line 102). -/
noncomputable def sw_t0 : ℝ := 0.0

/-- Upper end of the recommended parameter range, `2π - eps` (source line 103). -/
noncomputable def sw_t1 (p : Params) : ℝ :=
  (2.0 * π) - p.eps

/-- The lines of `solidworks_equations_text` (source lines 90-125), with the
decimal rendering of a float abstracted as `fmt` (integers render via
`toString`, matching Python's `str` on `int`). -/
noncomputable def solidworks_equations_lines (fmt : ℝ → String) (p : Params) :
    List String :=
  ["SolidWorks Equation Driven Curve (Parametric)",
   "Units: mm for R, Rr, E. Parameter t is radians.",
   "",
   "Define these variables in SolidWorks Equations:",
   "R  = " ++ fmt p.R,
   "Rr = " ++ fmt p.Rr,
   "E  = " ++ fmt p.E,
   "N  = " ++ toString p.N,
   "",
   "Paste into the Equation Driven Curve dialog:",
   sw_x_eq p.N,
   sw_y_eq p.N,
   "",
   "Recommended t range: " ++ fmt sw_t0 ++ " to " ++ fmt (sw_t1 p) ++
     " (avoid exactly 2*pi)"] ++
  (if p.dual_disc then
    ["",
     "Optional: Disc 2 (phase shifted)",
     "Use t2 = t + " ++ fmt (radians p.disc2_phase_deg) ++ "  (or add " ++
       fmt (radians p.disc2_phase_deg) ++ " everywhere t appears)"]
   else [])

/-- The export text, lines joined by newlines (source line 125). -/
noncomputable def solidworks_equations_text (fmt : ℝ → String) (p : Params) : String :=
  String.intercalate "\n" (solidworks_equations_lines fmt p)

/-- The closed-form point stated by the spec for the Curve Evaluator: with
`tt = t + phaseOffset`, `a = (1-N)·tt`, `denom = R/(E·N) - cos a`,
`psi = atan2(sin a, denom)`, the point is
`(R·cos tt - Rr·cos(tt+psi) - E·cos(N·tt), -R·sin tt + Rr·sin(tt+psi) + E·sin(N·tt))`. -/
noncomputable def spec_closed_form (t R Rr E : ℝ) (N : ℤ) (phaseOffset : ℝ) : ℝ × ℝ :=
  let tt := t + phaseOffset
  let a := (1 - (N : ℝ)) * tt
  let denom := R / (E * (N : ℝ)) - Real.cos a
  let psi := arctan2 (Real.sin a) denom
  (R * Real.cos tt - Rr * Real.cos (tt + psi) - E * Real.cos ((N : ℝ) * tt),
   -R * Real.sin tt + Rr * Real.sin (tt + psi) + E * Real.sin ((N : ℝ) * tt))

/-- The `psi` string demanded by the spec for the export, built around the
single-argument inverse tangent. -/
def spec_sw_psi (N : ℤ) : String :=
  "atan( sin((1-" ++ toString N ++ ")*t) / ((R/(E*" ++ toString N ++
    ")) - cos((1-" ++ toString N ++ ")*t)) )"

lemma arctan2_of_pos (y x : ℝ) (hx : 0 < x) : arctan2 y x = Real.arctan (y / x) := by
  simp [arctan2, hx]

lemma arctan2_zero_left (x : ℝ) (hx : 0 < x) : arctan2 0 x = 0 := by
  simp [arctan2, hx]

lemma arctan2_lt_pi_div_two (y x : ℝ) (hx : 0 < x) : arctan2 y x < π / 2 := by
  rw [arctan2_of_pos y x hx]
  exact Real.arctan_lt_pi_div_two _

lemma neg_pi_div_two_lt_arctan2 (y x : ℝ) (hx : 0 < x) : -(π / 2) < arctan2 y x := by
  rw [arctan2_of_pos y x hx]
  exact Real.neg_pi_div_two_lt_arctan _

lemma cos_arctan2_neg (y x : ℝ) :
    Real.cos (arctan2 (-y) x) = Real.cos (arctan2 y x) := by
  unfold arctan2
  rcases lt_trichotomy x 0 with hx | hx | hx
  · have hx1 : ¬ 0 < x := not_lt.mpr hx.le
    rcases lt_trichotomy y 0 with hy | hy | hy
    · have hy1 : ¬ 0 ≤ y := not_le.mpr hy
      have hy2 : (0 : ℝ) ≤ -y := neg_nonneg.mpr hy.le
      simp only [hx1, hx, hy1, hy2, if_true, if_false]
      rw [neg_div, Real.arctan_neg]
      have h : -Real.arctan (y / x) + π = -(Real.arctan (y / x) - π) := by ring
      rw [h, Real.cos_neg]
    · subst hy
      simp
    · have hy1 : (0 : ℝ) ≤ y := hy.le
      have hy2 : ¬ (0 : ℝ) ≤ -y := not_le.mpr (neg_neg_iff_pos.mpr hy)
      simp only [hx1, hx, hy1, hy2, if_true, if_false]
      rw [neg_div, Real.arctan_neg]
      have h : -Real.arctan (y / x) - π = -(Real.arctan (y / x) + π) := by ring
      rw [h, Real.cos_neg]
  · subst hx
    have h0 : ¬ (0 : ℝ) < 0 := lt_irrefl 0
    rcases lt_trichotomy y 0 with hy | hy | hy
    · have hy1 : ¬ 0 < y := not_lt.mpr hy.le
      have hy2 : (0 : ℝ) < -y := neg_pos.mpr hy
      simp only [h0, hy1, hy2, hy, if_true, if_false]
      rw [Real.cos_neg]
    · subst hy
      simp
    · have hy2 : ¬ (0 : ℝ) < -y := not_lt.mpr (neg_nonpos.mpr hy.le)
      have hy3 : ¬ (-y : ℝ) < 0 → True := fun _ => trivial
      have hy4 : (-y : ℝ) < 0 := neg_neg_iff_pos.mpr hy
      simp only [h0, hy, hy2, hy4, if_true, if_false]
      rw [Real.cos_neg]
  · simp only [hx, if_true]
    rw [neg_div, Real.arctan_neg, Real.cos_neg]

lemma sin_arctan2_neg (y x : ℝ) :
    Real.sin (arctan2 (-y) x) = -Real.sin (arctan2 y x) := by
  unfold arctan2
  rcases lt_trichotomy x 0 with hx | hx | hx
  · have hx1 : ¬ 0 < x := not_lt.mpr hx.le
    rcases lt_trichotomy y 0 with hy | hy | hy
    · have hy1 : ¬ 0 ≤ y := not_le.mpr hy
      have hy2 : (0 : ℝ) ≤ -y := neg_nonneg.mpr hy.le
      simp only [hx1, hx, hy1, hy2, if_true, if_false]
      rw [neg_div, Real.arctan_neg]
      have h : -Real.arctan (y / x) + π = -(Real.arctan (y / x) - π) := by ring
      rw [h, Real.sin_neg]
    · subst hy
      simp [Real.sin_add, hx1, hx]
    · have hy1 : (0 : ℝ) ≤ y := hy.le
      have hy2 : ¬ (0 : ℝ) ≤ -y := not_le.mpr (neg_neg_iff_pos.mpr hy)
      simp only [hx1, hx, hy1, hy2, if_true, if_false]
      rw [neg_div, Real.arctan_neg]
      have h : -Real.arctan (y / x) - π = -(Real.arctan (y / x) + π) := by ring
      rw [h, Real.sin_neg]
  · subst hx
    have h0 : ¬ (0 : ℝ) < 0 := lt_irrefl 0
    rcases lt_trichotomy y 0 with hy | hy | hy
    · have hy1 : ¬ 0 < y := not_lt.mpr hy.le
      have hy2 : (0 : ℝ) < -y := neg_pos.mpr hy
      simp only [h0, hy1, hy2, hy, if_true, if_false]
      rw [Real.sin_neg, neg_neg]
    · subst hy
      simp
    · have hy2 : ¬ (0 : ℝ) < -y := not_lt.mpr (neg_nonpos.mpr hy.le)
      have hy4 : (-y : ℝ) < 0 := neg_neg_iff_pos.mpr hy
      simp only [h0, hy, hy2, hy4, if_true, if_false]
      rw [Real.sin_neg]
  · simp only [hx, if_true]
    rw [neg_div, Real.arctan_neg, Real.sin_neg]

/-- Claim C1: for every parameter vector `(R, Rr, E, N, phaseOffset)` with
`E*N` nonzero and every `t`, the curve evaluator returns exactly the closed-form
point stated by the spec, with `psi` computed by the two-argument
quadrant-aware inverse tangent applied to `(sin a, denom)`. -/
theorem evaluator_matches_closed_form (t R Rr E : ℝ) (N : ℤ) (phaseOffset : ℝ)
    (_hEN : E * (N : ℝ) ≠ 0) :
    cycloid_point t R Rr E N phaseOffset = spec_closed_form t R Rr E N phaseOffset ∧
    cycloid_psi R E N (t + phaseOffset) =
      arctan2 (Real.sin ((1 - (N : ℝ)) * (t + phaseOffset)))
        ((R / (E * (N : ℝ))) - Real.cos ((1 - (N : ℝ)) * (t + phaseOffset))) := by
  exact ⟨rfl, rfl⟩

/-- Witness for C1 at `R=20, Rr=3, E=1.1, N=10, phase=0, t=0`. -/
theorem evaluator_matches_closed_form_witness :
    ((11 / 10 : ℝ) * ((10 : ℤ) : ℝ) ≠ 0) ∧
    cycloid_point 0 20 3 (11 / 10) 10 0 = spec_closed_form 0 20 3 (11 / 10) 10 0 :=
  ⟨by norm_num,
   (evaluator_matches_closed_form 0 20 3 (11 / 10) 10 0 (by norm_num)).1⟩

/-- Claim C4: evaluating at parameter `t` with phase offset `φ` yields the same
point as evaluating at parameter `t + φ` with phase offset `0`; over the real
model the equality is exact. -/
theorem phase_shift_equivalence (t phi R Rr E : ℝ) (N : ℤ) :
    cycloid_point t R Rr E N phi = cycloid_point (t + phi) R Rr E N 0 := by
  simp [cycloid_point]

/-- Claim C7: at `R=1, Rr=1, E=1, N=10` the warning list contains the
"R should usually be larger than Rr" message, and the full list is exactly the
`E > R/N` message followed by that message (no other warning involves the
`(R, Rr)` pair); at `R=20, Rr=3, E=1.1, N=10` the warning list is empty; the
checker is a total function and the evaluator still runs on the warned
parameters, producing one point per sample. -/
theorem warnings_scenarios :
    ("R should usually be larger than Rr (roller circle radius vs roller radius)." ∈
        sanity_warnings 1 1 1 10) ∧
    sanity_warnings 1 1 1 10 =
      ["E is larger than R/N. This often causes ugly/self-intersecting profiles. Not always invalid, but check fit.",
       "R should usually be larger than Rr (roller circle radius vs roller radius)."] ∧
    sanity_warnings 20 3 (11 / 10) 10 = [] ∧
    ∀ ts : List ℝ, (cycloid_profile_xy ts 1 1 1 10 0).length = ts.length := by
  have h1 : sanity_warnings 1 1 1 10 =
      ["E is larger than R/N. This often causes ugly/self-intersecting profiles. Not always invalid, but check fit.",
       "R should usually be larger than Rr (roller circle radius vs roller radius)."] := by
    unfold sanity_warnings
    rw [if_neg (by norm_num), if_pos (by norm_num), if_pos (by norm_num)]
    rfl
  have h2 : sanity_warnings 20 3 (11 / 10) 10 = [] := by
    unfold sanity_warnings
    rw [if_neg (by norm_num), if_neg (by norm_num), if_neg (by norm_num)]
    rfl
  refine ⟨by simp [h1], h1, h2, fun ts => ?_⟩
  simp [cycloid_profile_xy]

/-- Claim C3: with `N ≥ 3` and `R, Rr, E > 0`, at any `t` where the
denominator is nonzero the evaluator's coordinates are finite, witnessed by the
explicit bound `R + Rr + E` on their absolute values; and the sweep maps the
evaluator over every sample without filtering, so any degenerate values would
propagate (one output point per input sample). -/
theorem finite_whenever_denom_nonzero (R Rr E t phaseOffset : ℝ) (N : ℤ)
    (_hN : 3 ≤ N) (hR : 0 < R) (hRr : 0 < Rr) (hE : 0 < E)
    (_hd : cycloid_denom R E N (t + phaseOffset) ≠ 0) :
    |(cycloid_point t R Rr E N phaseOffset).1| ≤ R + Rr + E ∧
    |(cycloid_point t R Rr E N phaseOffset).2| ≤ R + Rr + E ∧
    ∀ ts : List ℝ, (cycloid_profile_xy ts R Rr E N phaseOffset).length = ts.length := by
  refine ⟨?_, ?_, fun ts => by simp [cycloid_profile_xy]⟩
  · simp only [cycloid_point]
    rw [abs_le]
    constructor <;>
      nlinarith [Real.neg_one_le_cos (t + phaseOffset), Real.cos_le_one (t + phaseOffset),
        Real.neg_one_le_cos ((t + phaseOffset) + cycloid_psi R E N (t + phaseOffset)),
        Real.cos_le_one ((t + phaseOffset) + cycloid_psi R E N (t + phaseOffset)),
        Real.neg_one_le_cos ((N : ℝ) * (t + phaseOffset)),
        Real.cos_le_one ((N : ℝ) * (t + phaseOffset))]
  · simp only [cycloid_point]
    rw [abs_le]
    constructor <;>
      nlinarith [Real.neg_one_le_sin (t + phaseOffset), Real.sin_le_one (t + phaseOffset),
        Real.neg_one_le_sin ((t + phaseOffset) + cycloid_psi R E N (t + phaseOffset)),
        Real.sin_le_one ((t + phaseOffset) + cycloid_psi R E N (t + phaseOffset)),
        Real.neg_one_le_sin ((N : ℝ) * (t + phaseOffset)),
        Real.sin_le_one ((N : ℝ) * (t + phaseOffset))]

/-- Witness for C3 at `R=20, Rr=3, E=1.1, N=10, phase=0, t=0`, where the
denominator is `20/11 - 1 = 9/11 ≠ 0`. -/
theorem finite_whenever_denom_nonzero_witness :
    ((3 : ℤ) ≤ 10 ∧ (0 : ℝ) < 20 ∧ (0 : ℝ) < 3 ∧ (0 : ℝ) < 11 / 10 ∧
      cycloid_denom 20 (11 / 10) 10 (0 + 0) ≠ 0) ∧
    |(cycloid_point 0 20 3 (11 / 10) 10 0).1| ≤ 20 + 3 + 11 / 10 := by
  have hd : cycloid_denom 20 (11 / 10) 10 (0 + 0) ≠ 0 := by
    unfold cycloid_denom cycloid_a
    norm_num [Real.cos_zero]
  exact ⟨⟨by norm_num, by norm_num, by norm_num, by norm_num, hd⟩,
    (finite_whenever_denom_nonzero 20 3 (11 / 10) 0 0 10 (by norm_num) (by norm_num)
      (by norm_num) (by norm_num) hd).1⟩

/-- Claim C9: when `R > 0`, `E > 0`, `N ≥ 1` and `E < R/N` (the parameters that
do not trigger the `E > R/N` advisory), the denominator `R/(E·N) - cos a` is
strictly positive at every `t` and phase offset, so the degeneracy `denom = 0`
is unreachable and `psi` lies in the open interval `(-π/2, π/2)`. -/
theorem denom_pos_when_E_lt_R_div_N (R E : ℝ) (N : ℤ) (t phaseOffset : ℝ)
    (_hR : 0 < R) (hE : 0 < E) (hN : 1 ≤ N) (hlt : E < R / (N : ℝ)) :
    0 < cycloid_denom R E N (t + phaseOffset) ∧
    cycloid_denom R E N (t + phaseOffset) ≠ 0 ∧
    -(π / 2) < cycloid_psi R E N (t + phaseOffset) ∧
    cycloid_psi R E N (t + phaseOffset) < π / 2 := by
  have hN1 : (1 : ℝ) ≤ (N : ℝ) := by exact_mod_cast hN
  have hNpos : (0 : ℝ) < (N : ℝ) := lt_of_lt_of_le zero_lt_one hN1
  have hEN : 0 < E * (N : ℝ) := mul_pos hE hNpos
  have h1 : E * (N : ℝ) < R := (lt_div_iff₀ hNpos).mp hlt
  have h2 : 1 < R / (E * (N : ℝ)) := (one_lt_div hEN).mpr h1
  have hd : 0 < cycloid_denom R E N (t + phaseOffset) := by
    unfold cycloid_denom
    have hc := Real.cos_le_one (cycloid_a N (t + phaseOffset))
    linarith
  refine ⟨hd, ne_of_gt hd, ?_, ?_⟩
  · unfold cycloid_psi
    exact neg_pi_div_two_lt_arctan2 _ _ hd
  · unfold cycloid_psi
    exact arctan2_lt_pi_div_two _ _ hd

/-- Claim C5: with integer `N` and the phase offset held fixed, the evaluator
is `2π`-periodic in `t`: the points at `t + 2π` and at `t` coincide exactly in
the real model. -/
theorem periodicity_two_pi (t phi R Rr E : ℝ) (N : ℤ) :
    cycloid_point (t + 2 * π) R Rr E N phi = cycloid_point t R Rr E N phi := by
  simp only [cycloid_point, cycloid_psi, cycloid_denom, cycloid_a]
  have e1 : t + 2 * π + phi = (t + phi) + 2 * π := by ring
  rw [e1]
  have e2 : (1 - (N : ℝ)) * ((t + phi) + 2 * π) =
      (1 - (N : ℝ)) * (t + phi) + ((1 - N : ℤ) : ℝ) * (2 * π) := by
    push_cast
    ring
  have e3 : (N : ℝ) * ((t + phi) + 2 * π) =
      (N : ℝ) * (t + phi) + ((N : ℤ) : ℝ) * (2 * π) := by
    ring
  rw [e2, e3]
  simp only [Real.cos_add_int_mul_two_pi, Real.sin_add_int_mul_two_pi]
  have e4 : ∀ ψ : ℝ, (t + phi) + 2 * π + ψ = ((t + phi) + ψ) + 2 * π := by
    intro ψ
    ring
  rw [e4, Real.cos_add_two_pi, Real.sin_add_two_pi, Real.cos_add_two_pi,
      Real.sin_add_two_pi]

/-- Claim C10: with phase offset `0` the profile is mirror-symmetric about the
x-axis: `x(-t) = x(t)` and `y(-t) = -y(t)` for every parameter vector and `t`. -/
theorem mirror_symmetry_x_axis (t R Rr E : ℝ) (N : ℤ) :
    (cycloid_point (-t) R Rr E N 0).1 = (cycloid_point t R Rr E N 0).1 ∧
    (cycloid_point (-t) R Rr E N 0).2 = -(cycloid_point t R Rr E N 0).2 := by
  simp only [cycloid_point, cycloid_psi, cycloid_denom, cycloid_a, add_zero]
  have ha : (1 - (N : ℝ)) * (-t) = -((1 - (N : ℝ)) * t) := by ring
  have hn : (N : ℝ) * (-t) = -((N : ℝ) * t) := by ring
  rw [ha, hn]
  simp only [Real.sin_neg, Real.cos_neg]
  rw [Real.cos_add (-t), Real.sin_add (-t), Real.cos_add t, Real.sin_add t]
  rw [cos_arctan2_neg, sin_arctan2_neg]
  simp only [Real.sin_neg, Real.cos_neg]
  constructor
  · ring
  · ring

/-- Witness for C9 at `R=1, E=1/4, N=2, t=0, phase=0`. -/
theorem denom_pos_when_E_lt_R_div_N_witness :
    ((0 : ℝ) < 1 ∧ (0 : ℝ) < 1 / 4 ∧ (1 : ℤ) ≤ 2 ∧ (1 / 4 : ℝ) < 1 / ((2 : ℤ) : ℝ)) ∧
    0 < cycloid_denom 1 (1 / 4) 2 (0 + 0) :=
  ⟨⟨by norm_num, by norm_num, by norm_num, by norm_num⟩,
   (denom_pos_when_E_lt_R_div_N 1 (1 / 4) 2 0 0 (by norm_num) (by norm_num)
     (by norm_num) (by norm_num)).1⟩

/-- Claim C2: for `R=20, Rr=3, E=1.1, N=10, samples=1200, epsilon=9e-4,
phase=0`, the sweep is exactly 1200 points in strictly increasing `t` starting
at `t = 0`; at the first point `atan2(0, R/(E·N)) = 0` and the evaluator gives
`x = R - Rr - E = 15.9`, `y = 0` (exactly, in the real model). -/
theorem sweep_first_point_scenario :
    (sweep_t (9 / 10000) 1200).length = 1200 ∧
    List.Sorted (· < ·) (sweep_t (9 / 10000) 1200) ∧
    (sweep_t (9 / 10000) 1200)[0]? = some 0 ∧
    arctan2 0 (20 / ((11 / 10) * ((10 : ℤ) : ℝ))) = 0 ∧
    cycloid_point 0 20 3 (11 / 10) 10 0 = (159 / 10, 0) := by
  have hstep : (0 : ℝ) < ((2 * π - 9 / 10000) - 0) / ((1200 : ℝ) - 1) := by
    have hπ := Real.pi_gt_three
    apply div_pos
    · linarith
    · norm_num
  refine ⟨?_, ?_, ?_, ?_, ?_⟩
  · simp [sweep_t, linspace]
  · unfold sweep_t linspace List.Sorted
    refine List.Pairwise.map _ (fun a b hab => ?_) (List.pairwise_lt_range 1200)
    have hab1 : (a : ℝ) < (b : ℝ) := Nat.cast_lt.mpr hab
    have := mul_lt_mul_of_pos_right hab1 hstep
    linarith
  · unfold sweep_t linspace
    rw [List.getElem?_map]
    norm_num
  · exact arctan2_zero_left _ (by norm_num)
  · have ha : cycloid_a 10 (0 + 0) = 0 := by
      simp [cycloid_a]
    have hd : cycloid_denom 20 (11 / 10) 10 (0 + 0) = 9 / 11 := by
      unfold cycloid_denom
      rw [ha, Real.cos_zero]
      norm_num
    have hpsi : cycloid_psi 20 (11 / 10) 10 (0 + 0) = 0 := by
      unfold cycloid_psi
      rw [ha, hd, Real.sin_zero]
      exact arctan2_zero_left _ (by norm_num)
    unfold cycloid_point
    rw [hpsi]
    norm_num [Real.cos_zero, Real.sin_zero]

/-- Claim C6: for radius `r ≥ 0` and count `k ≥ 1` the circle placement —
computed identically by `roller_centres` and `output_hole_centres` — returns
exactly `k` points, the j-th being `(r·cos(2πj/k), r·sin(2πj/k))`; every point
lies at distance `r` from the origin, and consecutive angles differ by `2π/k`. -/
theorem circle_placement_contract (r : ℝ) (k : ℕ) (hr : 0 ≤ r) (hk : 1 ≤ k) :
    roller_centres r k = output_hole_centres r k ∧
    (roller_centres r k).length = k ∧
    (∀ j : ℕ, j < k →
      (roller_centres r k)[j]? =
        some (r * Real.cos (2 * π * j / k), r * Real.sin (2 * π * j / k))) ∧
    (∀ pt ∈ roller_centres r k, Real.sqrt (pt.1 ^ 2 + pt.2 ^ 2) = r) ∧
    (∀ j : ℕ, 2 * π * (j + 1) / k - 2 * π * j / k = 2 * π / k) := by
  have hk0 : (k : ℝ) ≠ 0 := Nat.cast_ne_zero.mpr (by omega)
  refine ⟨rfl, ?_, ?_, ?_, ?_⟩
  · simp [roller_centres, linspace_ef]
  · intro j hj
    unfold roller_centres linspace_ef
    rw [List.map_map, List.getElem?_map, List.getElem?_range hj]
    have harg : (0 : ℝ) + (j : ℝ) * ((2 * π - 0) / (k : ℝ)) = 2 * π * j / k := by
      ring
    simp only [Option.map_some', Function.comp_apply]
    rw [harg]
  · intro pt hpt
    unfold roller_centres at hpt
    obtain ⟨ang, _, rfl⟩ := List.mem_map.mp hpt
    have h1 : (r * Real.cos ang) ^ 2 + (r * Real.sin ang) ^ 2 =
        r ^ 2 * (Real.sin ang ^ 2 + Real.cos ang ^ 2) := by
      ring
    simp only [h1, Real.sin_sq_add_cos_sq, mul_one]
    exact Real.sqrt_sq hr
  · intro j
    rw [div_sub_div_same]
    congr 1
    ring

/-- Witness for C6 at `r = 2, k = 4`. -/
theorem circle_placement_contract_witness :
    ((0 : ℝ) ≤ 2 ∧ (1 : ℕ) ≤ 4) ∧ (roller_centres 2 4).length = 4 :=
  ⟨⟨by norm_num, by norm_num⟩,
   (circle_placement_contract 2 4 (by norm_num) (by norm_num)).2.1⟩

/-- Claim C8: for every `Params` (with positive `epsilon`), the exported
curve-description lines contain the X and Y formula lines whose `psi`
sub-expression is exactly the single-argument inverse tangent demanded by the
spec, and a recommended-range line running from `0` to exactly `2π - epsilon`,
which is strictly below `2π`, so the closed interval `[0, 2π]` is never
recommended. -/
theorem solidworks_export_lines (fmt : ℝ → String) (p : Params) (heps : 0 < p.eps) :
    sw_x_eq p.N ∈ solidworks_equations_lines fmt p ∧
    sw_y_eq p.N ∈ solidworks_equations_lines fmt p ∧
    sw_psi p.N = spec_sw_psi p.N ∧
    ("Recommended t range: " ++ fmt sw_t0 ++ " to " ++ fmt (sw_t1 p) ++
        " (avoid exactly 2*pi)") ∈ solidworks_equations_lines fmt p ∧
    sw_t0 = 0 ∧ sw_t1 p = 2 * π - p.eps ∧ sw_t1 p < 2 * π := by
  refine ⟨?_, ?_, rfl, ?_, ?_, ?_, ?_⟩
  · simp [solidworks_equations_lines]
  · simp [solidworks_equations_lines]
  · simp [solidworks_equations_lines]
  · norm_num [sw_t0]
  · norm_num [sw_t1]
  · have h : sw_t1 p = 2 * π - p.eps := by norm_num [sw_t1]
    rw [h]
    linarith

/-- Witness for C8 with the identity-style formatter and the default
parameters `R=20, Rr=3, E=1.1, N=10, eps=9e-4`. -/
theorem solidworks_export_lines_witness :
    (0 : ℝ) <
        (Params.mk 20 3 (11 / 10) 10 10 4 8 (1 / 5) false 180 1200 (9 / 10000)).eps ∧
    sw_x_eq (Params.mk 20 3 (11 / 10) 10 10 4 8 (1 / 5) false 180 1200 (9 / 10000)).N ∈
      solidworks_equations_lines (fun _ => "")
        (Params.mk 20 3 (11 / 10) 10 10 4 8 (1 / 5) false 180 1200 (9 / 10000)) :=
  ⟨by norm_num,
   (solidworks_export_lines (fun _ => "")
     (Params.mk 20 3 (11 / 10) 10 10 4 8 (1 / 5) false 180 1200 (9 / 10000))
     (by norm_num)).1⟩

end CycloidApp
